import Mathlib

/-!
Verification of the Browser-Manager instance lifecycle manager
(`src/main/browserManager.ts`, `src/main/utils.ts`, `src/main/types.ts`).

The TypeScript code is shallowly embedded: the `BrowserManager` class state
(`instances`, `configs`, `isShuttingDown`, plus observable effects: emitted
`statusUpdate` events, lock-artifact cleanups, config persistence, profile
directory removal) becomes an explicit `ManagerState` record, JavaScript
`Map`s become association lists with JS `Map` semantics (first-match lookup,
in-place replacement on `set` of an existing key, append on a new key), and
the external world (filesystem, puppeteer browser handles, timers) is an
explicit oracle parameter of each operation.  Machine timestamps
(`Date.now()`) are `Nat` parameters.
-/

namespace BrowserManager

/-- The `action` field of `BrowserStatus` (`types.ts`): `starting` or
`stopping`. -/
inductive InstanceAction where
  | starting
  | stopping
deriving DecidableEq, Repr

/-- `BrowserStatus` from `types.ts`: `{isRunning, lastChecked, inProgress,
action?}`.  `lastChecked` is a millisecond timestamp, embedded as `Nat`. -/
structure BrowserStatus where
  isRunning : Bool
  lastChecked : Nat
  inProgress : Bool
  action : Option InstanceAction := none
deriving DecidableEq, Repr

/-- `BrowserConfig` from `types.ts`: a stored profile `{id, name}`. -/
structure BrowserConfig where
  id : String
  name : String
deriving DecidableEq, Repr

/-- Outcome of an awaited browser call (`browser.pages()`,
`browser.targets()`): it either throws or returns a list, of which only the
length is observed. -/
inductive CallResult where
  | threw
  | returned (count : Nat)
deriving DecidableEq, Repr

/-- Oracle describing one puppeteer `Browser` handle, carrying exactly the
observations `checkBrowserRunning` makes of it: `isConnected()`, `process()`
existence and `killed` flag, and the outcomes of `pages()` / `targets()`. -/
structure BrowserProbe where
  connected : Bool
  processExists : Bool
  processKilled : Bool
  pagesResult : CallResult
  targetsResult : CallResult
deriving DecidableEq, Repr

/-- `BrowserInstance` from `types.ts`.  The `browser` field is `none` for the
placeholder registered at the start of `launchBrowser` (`browser: null`). -/
structure BrowserInstance where
  id : String
  browser : Option BrowserProbe
  config : BrowserConfig
  status : BrowserStatus
deriving DecidableEq, Repr

/-! ### Association lists with JS `Map` semantics -/

/-- `Map.get(k)`: value of the first entry with key `k`. -/
def assocGet (l : List (String × α)) (k : String) : Option α :=
  (l.find? (fun e => e.1 = k)).map Prod.snd

/-- `Map.has(k)`. -/
def assocHas (l : List (String × α)) (k : String) : Bool :=
  l.any (fun e => e.1 = k)

/-- Field mutation on the value stored at key `k` (JS object mutation through
a live reference): every entry with key `k` has `f` applied to its value. -/
def assocUpdate (l : List (String × α)) (k : String) (f : α → α) :
    List (String × α) :=
  l.map (fun e => if e.1 = k then (e.1, f e.2) else e)

/-- `Map.delete(k)`: remove the entry with key `k`. -/
def assocErase (l : List (String × α)) (k : String) : List (String × α) :=
  l.filter (fun e => !(e.1 = k : Bool))

/-- `Map.set(k, v)`: replace in place when `k` is present (JS `Map` keeps
insertion order), append otherwise. -/
def assocSet (l : List (String × α)) (k : String) (v : α) :
    List (String × α) :=
  if assocHas l k then assocUpdate l k (fun _ => v) else l ++ [(k, v)]

@[simp] theorem assocGet_nil (k : String) :
    assocGet ([] : List (String × α)) k = none := rfl

@[simp] theorem assocGet_cons (e : String × α) (l : List (String × α))
    (k : String) :
    assocGet (e :: l) k = if e.1 = k then some e.2 else assocGet l k := by
  by_cases h : e.1 = k <;> simp [assocGet, List.find?, h]

theorem assocGet_assocUpdate (l : List (String × α)) (k k2 : String)
    (f : α → α) :
    assocGet (assocUpdate l k f) k2 =
      if k2 = k then (assocGet l k2).map f else assocGet l k2 := by
  induction l with
  | nil => simp [assocUpdate]
  | cons e l ih =>
    simp only [assocUpdate, List.map_cons] at ih ⊢
    by_cases he : e.1 = k
    · rw [if_pos he]
      by_cases hk : k2 = k
      · subst hk
        rw [if_pos rfl, assocGet_cons, assocGet_cons, if_pos he, if_pos he]
        rfl
      · have he2 : ¬ (e.1 = k2) := fun h => hk ((he.symm.trans h).symm)
        rw [if_neg hk, assocGet_cons, assocGet_cons, if_neg he2, if_neg he2,
          ih, if_neg hk]
    · rw [if_neg he, assocGet_cons, assocGet_cons]
      by_cases he2 : e.1 = k2
      · rw [if_pos he2, if_pos he2]
        by_cases hk : k2 = k
        · exact (he (he2.trans hk)).elim
        · rw [if_neg hk]
      · rw [if_neg he2, if_neg he2, ih]

theorem assocGet_assocErase (l : List (String × α)) (k k2 : String) :
    assocGet (assocErase l k) k2 =
      if k2 = k then none else assocGet l k2 := by
  induction l with
  | nil => simp [assocErase]
  | cons e l ih =>
    simp only [assocErase, List.filter_cons] at ih ⊢
    by_cases he : e.1 = k
    · rw [if_neg (by simp [he]), ih]
      by_cases hk : k2 = k
      · rw [if_pos hk, if_pos hk]
      · have he2 : ¬ (e.1 = k2) := fun h => hk ((he.symm.trans h).symm)
        rw [if_neg hk, if_neg hk, assocGet_cons, if_neg he2]
    · rw [if_pos (by simp [he]), assocGet_cons, assocGet_cons]
      by_cases he2 : e.1 = k2
      · rw [if_pos he2, if_pos he2]
        by_cases hk : k2 = k
        · exact (he (he2.trans hk)).elim
        · rw [if_neg hk]
      · rw [if_neg he2, if_neg he2, ih]

theorem assocGet_append (l1 l2 : List (String × α)) (k : String) :
    assocGet (l1 ++ l2) k =
      match assocGet l1 k with
      | some v => some v
      | none => assocGet l2 k := by
  induction l1 with
  | nil => simp
  | cons e l ih =>
    rw [List.cons_append, assocGet_cons, assocGet_cons]
    by_cases he : e.1 = k
    · rw [if_pos he, if_pos he]
    · rw [if_neg he, if_neg he, ih]

theorem assocGet_eq_none_of_not_has (l : List (String × α)) (k : String)
    (h : assocHas l k = false) : assocGet l k = none := by
  induction l with
  | nil => rfl
  | cons e l ih =>
    simp only [assocHas, List.any_cons, Bool.or_eq_false_iff,
      decide_eq_false_iff_not] at h
    rw [assocGet_cons, if_neg h.1]
    exact ih (by simpa [assocHas] using h.2)

theorem assocGet_isSome_of_has (l : List (String × α)) (k : String)
    (h : assocHas l k = true) : (assocGet l k).isSome = true := by
  induction l with
  | nil => simp [assocHas] at h
  | cons e l ih =>
    simp only [assocHas, List.any_cons, Bool.or_eq_true,
      decide_eq_true_eq] at h
    rw [assocGet_cons]
    by_cases he : e.1 = k
    · rw [if_pos he]; rfl
    · rw [if_neg he]
      exact ih (by simpa [assocHas] using h.resolve_left he)

theorem assocGet_assocSet (l : List (String × α)) (k k2 : String) (v : α) :
    assocGet (assocSet l k v) k2 =
      if k2 = k then some v else assocGet l k2 := by
  unfold assocSet
  by_cases hmem : assocHas l k
  · rw [if_pos hmem, assocGet_assocUpdate]
    by_cases hk : k2 = k
    · subst hk
      rw [if_pos rfl, if_pos rfl]
      obtain ⟨a, ha⟩ :=
        Option.isSome_iff_exists.mp (assocGet_isSome_of_has l k2 hmem)
      rw [ha]
      rfl
    · rw [if_neg hk, if_neg hk]
  · rw [if_neg hmem, assocGet_append]
    by_cases hk : k2 = k
    · subst hk
      rw [assocGet_eq_none_of_not_has l k2 (by simpa using hmem)]
      simp [assocGet]
    · rw [if_neg hk]
      cases hget : assocGet l k2 with
      | some a => simp
      | none =>
        have hk2 : ¬ (k = k2) := fun h => hk h.symm
        simp [assocGet_cons, hk2]

/-! ### Manager state

The mutable fields of the `BrowserManager` class plus its observable
effects.  `events` is the log of `this.emit('statusUpdate', id, status)`
calls; `cleanedDirs` the log of `cleanUserDataDirectory(dir)` calls (the
function that deletes the three lock artifacts `SingletonLock`,
`SingletonSocket`, `Singleton` from a profile directory); `persistedConfigs`
the config list most recently written by `saveConfigs()` (`none` if never
written); `profileDirs` the set of per-id profile directories currently
existing on disk. -/

/-- State of the `BrowserManager` class together with its observable
effects. -/
structure ManagerState where
  instances : List (String × BrowserInstance)
  configs : List (String × BrowserConfig)
  isShuttingDown : Bool
  events : List (String × BrowserStatus)
  cleanedDirs : List String
  persistedConfigs : Option (List BrowserConfig)
  profileDirs : List String
deriving DecidableEq, Repr

/-- `getUserDataPath(id)`: `path.join(this.userDataBasePath, id)`.  The base
path is fixed per process; we embed it as the constant directory name used
in the source. -/
def getUserDataPath (id : String) : String :=
  "browser-instances/" ++ id

/-! ### Liveness check (`checkBrowserRunning`, lines 97-143)

The three-part probe: (1) `browser.isConnected()`; (2) `browser.process()`
exists and is not `killed`; (3) `pages()`/`targets()` do not throw and at
least one target exists.  An empty `pages()` list is only logged (the
`return false` is commented out in the source); an empty `targets()` list is
fatal.  Every thrown error is caught and converted to `false`, so the
function never throws. -/

/-- `checkBrowserRunning(browser)`: `none` is the `null` placeholder
browser. -/
def checkBrowserRunning (browser : Option BrowserProbe) : Bool :=
  match browser with
  | none => false
  | some b =>
    if !b.connected then false
    else if !b.processExists || b.processKilled then false
    else
      match b.pagesResult with
      | .threw => false
      | .returned _ =>
        match b.targetsResult with
        | .threw => false
        | .returned targetCount =>
          if targetCount = 0 then false else true

/-! ### Status update path (`updateInstanceStatus`, lines 145-173) -/

/-- `updateInstanceStatus(id, isRunning)`: returns unchanged if the id is
absent or its status has `inProgress` set; otherwise replaces the status
with `{isRunning, lastChecked: now, inProgress: false}` and, when the new
state is not-running outside a global shutdown, emits the new status,
deletes the id and calls `handleBrowserDisconnect` (which only logs);
otherwise just emits. -/
def updateInstanceStatus (s : ManagerState) (now : Nat) (id : String)
    (isRunning : Bool) : ManagerState :=
  match assocGet s.instances id with
  | none => s
  | some inst =>
    if inst.status.inProgress then s
    else if !isRunning && !s.isShuttingDown then
      { s with
        instances := assocErase
          (assocUpdate s.instances id (fun i =>
            { i with status := { isRunning := isRunning, lastChecked := now,
                                 inProgress := false } })) id,
        events := s.events ++
          [(id, { isRunning := isRunning, lastChecked := now,
                  inProgress := false })] }
    else
      { s with
        instances := assocUpdate s.instances id (fun i =>
          { i with status := { isRunning := isRunning, lastChecked := now,
                               inProgress := false } }),
        events := s.events ++
          [(id, { isRunning := isRunning, lastChecked := now,
                  inProgress := false })] }

/-! ### Health-monitor poll (`checkAllInstancesStatus`, lines 81-95)

The loop iterates the entries of `this.instances`.  During one cycle only
the entry being processed can be deleted (by `updateInstanceStatus`) and no
entry is ever inserted, so folding over the initial entry list while
re-reading each instance from the evolving state is a faithful embedding of
JS `Map` iteration with live object references.  `checkBrowserRunning`
never throws (all errors are caught inside it), so the `catch` branch of
the loop body is unreachable and is not modelled. -/

/-- One iteration of the `checkAllInstancesStatus` loop for the entry with
key `id`: if the liveness result differs from `status.isRunning`, delegate
to `updateInstanceStatus`; otherwise mutate `status.lastChecked` in place
and emit the (mutated) status — note this branch does not consult
`inProgress`. -/
def pollStep (now : Nat) (s : ManagerState) (id : String) : ManagerState :=
  match assocGet s.instances id with
  | none => s
  | some inst =>
    if checkBrowserRunning inst.browser ≠ inst.status.isRunning then
      updateInstanceStatus s now id (checkBrowserRunning inst.browser)
    else
      { s with
        instances := assocUpdate s.instances id
          (fun i => { i with status := { i.status with lastChecked := now } }),
        events := s.events ++
          [(id, { inst.status with lastChecked := now })] }

/-- `checkAllInstancesStatus()`: one full poll cycle over all registered
ids, at machine time `now`. -/
def checkAllInstancesStatus (now : Nat) (s : ManagerState) : ManagerState :=
  (s.instances.map Prod.fst).foldl (pollStep now) s

/-! ### Frame lemmas for the poll cycle -/

theorem updateInstanceStatus_frame (s : ManagerState) (now : Nat)
    (id : String) (b : Bool) :
    (updateInstanceStatus s now id b).configs = s.configs ∧
    (updateInstanceStatus s now id b).isShuttingDown = s.isShuttingDown ∧
    (updateInstanceStatus s now id b).cleanedDirs = s.cleanedDirs ∧
    (updateInstanceStatus s now id b).persistedConfigs = s.persistedConfigs ∧
    (updateInstanceStatus s now id b).profileDirs = s.profileDirs := by
  unfold updateInstanceStatus
  split
  · exact ⟨rfl, rfl, rfl, rfl, rfl⟩
  · split
    · exact ⟨rfl, rfl, rfl, rfl, rfl⟩
    · split <;> exact ⟨rfl, rfl, rfl, rfl, rfl⟩

theorem updateInstanceStatus_events (s : ManagerState) (now : Nat)
    (id : String) (b : Bool) :
    ∃ t, (updateInstanceStatus s now id b).events = s.events ++ t := by
  unfold updateInstanceStatus
  split
  · exact ⟨[], by simp⟩
  · split
    · exact ⟨[], by simp⟩
    · split <;> exact ⟨_, rfl⟩

theorem assocGet_updateInstanceStatus_ne (s : ManagerState) (now : Nat)
    (id : String) (b : Bool) (j : String) (hj : j ≠ id) :
    assocGet (updateInstanceStatus s now id b).instances j =
      assocGet s.instances j := by
  unfold updateInstanceStatus
  split
  · rfl
  · split
    · rfl
    · split
      · dsimp only
        rw [assocGet_assocErase, if_neg hj, assocGet_assocUpdate, if_neg hj]
      · dsimp only
        rw [assocGet_assocUpdate, if_neg hj]

theorem pollStep_frame (now : Nat) (s : ManagerState) (k : String) :
    (pollStep now s k).configs = s.configs ∧
    (pollStep now s k).isShuttingDown = s.isShuttingDown ∧
    (pollStep now s k).cleanedDirs = s.cleanedDirs ∧
    (pollStep now s k).persistedConfigs = s.persistedConfigs ∧
    (pollStep now s k).profileDirs = s.profileDirs := by
  unfold pollStep
  split
  · exact ⟨rfl, rfl, rfl, rfl, rfl⟩
  · split
    · exact updateInstanceStatus_frame s now k _
    · exact ⟨rfl, rfl, rfl, rfl, rfl⟩

theorem pollStep_events (now : Nat) (s : ManagerState) (k : String) :
    ∃ t, (pollStep now s k).events = s.events ++ t := by
  unfold pollStep
  split
  · exact ⟨[], by simp⟩
  · split
    · exact updateInstanceStatus_events s now k _
    · exact ⟨_, rfl⟩

theorem assocGet_pollStep_ne (now : Nat) (s : ManagerState) (k j : String)
    (hj : j ≠ k) :
    assocGet (pollStep now s k).instances j = assocGet s.instances j := by
  unfold pollStep
  split
  · rfl
  · split
    · exact assocGet_updateInstanceStatus_ne s now k _ j hj
    · dsimp only
      rw [assocGet_assocUpdate, if_neg hj]

/-- Agreement of two `BrowserInstance`s on every field except
`status.lastChecked`. -/
def sameExceptLastChecked (a b : BrowserInstance) : Prop :=
  a.id = b.id ∧ a.browser = b.browser ∧ a.config = b.config ∧
  a.status.isRunning = b.status.isRunning ∧
  a.status.inProgress = b.status.inProgress ∧
  a.status.action = b.status.action

theorem sameExceptLastChecked_refl (a : BrowserInstance) :
    sameExceptLastChecked a a :=
  ⟨rfl, rfl, rfl, rfl, rfl, rfl⟩

theorem sameExceptLastChecked_trans {a b c : BrowserInstance}
    (h1 : sameExceptLastChecked a b) (h2 : sameExceptLastChecked b c) :
    sameExceptLastChecked a c :=
  ⟨h1.1.trans h2.1, h1.2.1.trans h2.2.1, h1.2.2.1.trans h2.2.2.1,
   h1.2.2.2.1.trans h2.2.2.2.1, h1.2.2.2.2.1.trans h2.2.2.2.2.1,
   h1.2.2.2.2.2.trans h2.2.2.2.2.2⟩

/-- One poll iteration never removes an `inProgress` instance and changes at
most its `lastChecked` field. -/
theorem pollStep_preserves_inProgress (now : Nat) (s : ManagerState)
    (k id : String) (inst : BrowserInstance)
    (hget : assocGet s.instances id = some inst)
    (hprog : inst.status.inProgress = true) :
    ∃ inst2, assocGet (pollStep now s k).instances id = some inst2 ∧
      sameExceptLastChecked inst2 inst := by
  by_cases hk : id = k
  · subst hk
    unfold pollStep
    simp only [hget]
    by_cases hflip : checkBrowserRunning inst.browser ≠ inst.status.isRunning
    · rw [if_pos hflip]
      unfold updateInstanceStatus
      simp only [hget]
      rw [if_pos hprog]
      exact ⟨inst, hget, sameExceptLastChecked_refl inst⟩
    · rw [if_neg hflip]
      refine ⟨{ inst with status := { inst.status with lastChecked := now } },
        ?_, rfl, rfl, rfl, rfl, rfl, rfl⟩
      dsimp only
      rw [assocGet_assocUpdate, if_pos rfl, hget]
      rfl
  · rw [assocGet_pollStep_ne now s k id hk]
    exact ⟨inst, hget, sameExceptLastChecked_refl inst⟩

theorem pollFold_preserves_inProgress (now : Nat) (ks : List String)
    (s : ManagerState) (id : String) (inst : BrowserInstance)
    (hget : assocGet s.instances id = some inst)
    (hprog : inst.status.inProgress = true) :
    ∃ inst2, assocGet (ks.foldl (pollStep now) s).instances id = some inst2 ∧
      sameExceptLastChecked inst2 inst := by
  induction ks generalizing s inst with
  | nil => exact ⟨inst, hget, sameExceptLastChecked_refl inst⟩
  | cons k ks ih =>
    obtain ⟨inst2, hget2, hagree2⟩ :=
      pollStep_preserves_inProgress now s k id inst hget hprog
    have hprog2 : inst2.status.inProgress = true :=
      hagree2.2.2.2.2.1.trans hprog
    obtain ⟨inst3, hget3, hagree3⟩ := ih (pollStep now s k) inst2 hget2 hprog2
    exact ⟨inst3, hget3, sameExceptLastChecked_trans hagree3 hagree2⟩

/-- C1 (amended): for every registered id whose status has
`inProgress = true`, one cycle of `checkAllInstancesStatus` keeps the id
registered and leaves every field of the instance and its `Status` other
than `lastChecked` unchanged (`isRunning`, `inProgress`, `action`,
`browser`, `config`, `id` are all preserved); in particular the poller
never replaces the status of, and never removes, an id owned by an
in-flight operation.  (The original claim additionally asserted that
`lastChecked` is not mutated; that part is refuted by
`C1_poll_touches_lastChecked_of_inProgress`.) -/
theorem C1_poll_skips_inProgress_except_lastChecked (s : ManagerState)
    (now : Nat) (id : String) (inst : BrowserInstance)
    (hget : assocGet s.instances id = some inst)
    (hprog : inst.status.inProgress = true) :
    ∃ inst2,
      assocGet (checkAllInstancesStatus now s).instances id = some inst2 ∧
      inst2.id = inst.id ∧ inst2.browser = inst.browser ∧
      inst2.config = inst.config ∧
      inst2.status.isRunning = inst.status.isRunning ∧
      inst2.status.inProgress = true ∧
      inst2.status.action = inst.status.action := by
  obtain ⟨inst2, hget2, hagree⟩ :=
    pollFold_preserves_inProgress now (s.instances.map Prod.fst) s id inst
      hget hprog
  exact ⟨inst2, hget2, hagree.1, hagree.2.1, hagree.2.2.1, hagree.2.2.2.1,
    hagree.2.2.2.2.1.trans hprog, hagree.2.2.2.2.2⟩

/-- Concrete placeholder instance used by the C1 counterexample: a launch in
progress (`inProgress = true`, `action = starting`, `browser` still the
`null` placeholder). -/
def c1Instance : BrowserInstance :=
  { id := "1", browser := none, config := { id := "1", name := "A" },
    status := { isRunning := false, lastChecked := 0, inProgress := true,
                action := some InstanceAction.starting } }

/-- Concrete manager state for the C1 counterexample. -/
def c1State : ManagerState :=
  { instances := [("1", c1Instance)],
    configs := [("1", { id := "1", name := "A" })],
    isShuttingDown := false, events := [], cleanedDirs := [],
    persistedConfigs := none, profileDirs := [getUserDataPath "1"] }

/-- C1 (counterexample): in `c1State` the id `"1"` is registered with
`inProgress = true` and `lastChecked = 0`, yet one poll cycle at time `5`
mutates its `lastChecked` to `5` (the unchanged-liveness branch of
`checkAllInstancesStatus` writes `lastChecked` without consulting
`inProgress`), so the claim that the poll leaves such a Status entirely
unchanged is false. -/
theorem C1_poll_touches_lastChecked_of_inProgress :
    (assocGet c1State.instances "1").map
        (fun i => i.status.inProgress) = some true ∧
    (assocGet c1State.instances "1").map
        (fun i => i.status.lastChecked) = some 0 ∧
    (assocGet (checkAllInstancesStatus 5 c1State).instances "1").map
        (fun i => i.status.lastChecked) = some 5 := by
  decide

/-- Witness for `C1_poll_skips_inProgress_except_lastChecked` at the
concrete state `c1State`. -/
theorem C1_poll_skips_inProgress_witness :
    ∃ inst2,
      assocGet (checkAllInstancesStatus 5 c1State).instances "1" =
        some inst2 ∧
      inst2.id = c1Instance.id ∧ inst2.browser = c1Instance.browser ∧
      inst2.config = c1Instance.config ∧
      inst2.status.isRunning = c1Instance.status.isRunning ∧
      inst2.status.inProgress = true ∧
      inst2.status.action = c1Instance.status.action :=
  C1_poll_skips_inProgress_except_lastChecked c1State 5 "1" c1Instance
    (by decide) (by decide)

theorem pollFold_frame (now : Nat) (ks : List String) (s : ManagerState) :
    ((ks.foldl (pollStep now) s).configs = s.configs ∧
     (ks.foldl (pollStep now) s).isShuttingDown = s.isShuttingDown) ∧
    (ks.foldl (pollStep now) s).cleanedDirs = s.cleanedDirs ∧
    (ks.foldl (pollStep now) s).persistedConfigs = s.persistedConfigs ∧
    (ks.foldl (pollStep now) s).profileDirs = s.profileDirs := by
  induction ks generalizing s with
  | nil => exact ⟨⟨rfl, rfl⟩, rfl, rfl, rfl⟩
  | cons k ks ih =>
    obtain ⟨h1, h2, h3, h4, h5⟩ := pollStep_frame now s k
    obtain ⟨⟨g1, g2⟩, g3, g4, g5⟩ := ih (pollStep now s k)
    exact ⟨⟨g1.trans h1, g2.trans h2⟩, g3.trans h3, g4.trans h4, g5.trans h5⟩

theorem pollFold_get_ne (now : Nat) (ks : List String) (s : ManagerState)
    (id : String) (hid : id ∉ ks) :
    assocGet (ks.foldl (pollStep now) s).instances id =
      assocGet s.instances id := by
  induction ks generalizing s with
  | nil => rfl
  | cons k ks ih =>
    have hne : id ≠ k := fun h => hid (h ▸ List.mem_cons_self k ks)
    rw [List.foldl_cons, ih (pollStep now s k)
      (fun h => hid (List.mem_cons_of_mem k h)),
      assocGet_pollStep_ne now s k id hne]

theorem pollFold_events_mono (now : Nat) (ks : List String)
    (s : ManagerState) :
    ∃ t, (ks.foldl (pollStep now) s).events = s.events ++ t := by
  induction ks generalizing s with
  | nil => exact ⟨[], by simp⟩
  | cons k ks ih =>
    obtain ⟨t1, h1⟩ := pollStep_events now s k
    obtain ⟨t2, h2⟩ := ih (pollStep now s k)
    exact ⟨t1 ++ t2, by rw [List.foldl_cons, h2, h1, List.append_assoc]⟩

/-- When the entry for `id` is found not in progress and its liveness check
flips from running to not-running outside a shutdown, one poll iteration on
`id` erases it, emits the terminal status, and touches no lock artifacts. -/
theorem pollStep_removes_dead (now : Nat) (s : ManagerState) (id : String)
    (inst : BrowserInstance) (hget : assocGet s.instances id = some inst)
    (hprog : inst.status.inProgress = false)
    (hrun : inst.status.isRunning = true)
    (hdead : checkBrowserRunning inst.browser = false)
    (hsd : s.isShuttingDown = false) :
    assocGet (pollStep now s id).instances id = none ∧
    (pollStep now s id).events = s.events ++
      [(id, { isRunning := false, lastChecked := now, inProgress := false })] ∧
    (pollStep now s id).cleanedDirs = s.cleanedDirs := by
  unfold pollStep
  simp only [hget]
  rw [if_pos (by rw [hdead, hrun]; exact Bool.false_ne_true)]
  unfold updateInstanceStatus
  simp only [hget]
  rw [if_neg (by rw [hprog]; exact Bool.false_ne_true), hdead,
    if_pos (by rw [hsd]; rfl)]
  refine ⟨?_, rfl, rfl⟩
  dsimp only
  rw [assocGet_assocErase, if_pos rfl]

/-- C2 (amended): when a registered instance with `inProgress = false` has
its liveness check flip from running to not-running during a poll cycle
outside a shutdown, `checkAllInstancesStatus` removes the id from the
registry and emits a terminal status event with `isRunning = false` and
`inProgress = false` — but it does **not** clean the profile-directory lock
artifacts: the poll-cycle removal path (`updateInstanceStatus` /
`handleBrowserDisconnect`) performs no lock-artifact cleanup, so this
removal is not paired with lock-artifact removal.  (The original claim's
lock-cleanup part is refuted by `C2_poll_removal_cleans_no_locks`.) -/
theorem C2_poll_removes_dead_without_lock_cleanup (s : ManagerState)
    (now : Nat) (id : String) (inst : BrowserInstance)
    (hnd : (s.instances.map Prod.fst).Nodup)
    (hget : assocGet s.instances id = some inst)
    (hprog : inst.status.inProgress = false)
    (hrun : inst.status.isRunning = true)
    (hdead : checkBrowserRunning inst.browser = false)
    (hsd : s.isShuttingDown = false) :
    assocGet (checkAllInstancesStatus now s).instances id = none ∧
    (id, ({ isRunning := false, lastChecked := now,
            inProgress := false } : BrowserStatus)) ∈
      (checkAllInstancesStatus now s).events ∧
    (checkAllInstancesStatus now s).cleanedDirs = s.cleanedDirs := by
  have hmem : id ∈ s.instances.map Prod.fst := by
    have hfind := hget
    unfold assocGet at hfind
    cases hf : s.instances.find? (fun e => e.1 = id) with
    | none => rw [hf] at hfind; exact absurd hfind (by simp)
    | some e =>
      have he : e ∈ s.instances := List.mem_of_find?_eq_some hf
      have hkey : e.1 = id := by
        have := List.find?_some hf
        simpa using this
      exact hkey ▸ List.mem_map_of_mem Prod.fst he
  obtain ⟨ks1, ks2, hks⟩ := List.append_of_mem hmem
  have hnd2 := hks ▸ hnd
  rw [List.nodup_append] at hnd2
  obtain ⟨hnd1, hndc, hdisj⟩ := hnd2
  have hid1 : id ∉ ks1 := fun h => hdisj h (List.mem_cons_self id ks2)
  have hid2 : id ∉ ks2 := (List.nodup_cons.mp hndc).1
  unfold checkAllInstancesStatus
  rw [hks, List.foldl_append, List.foldl_cons]
  obtain ⟨⟨_, hsd1⟩, hcl1, _, _⟩ := pollFold_frame now ks1 s
  have hget1 : assocGet (ks1.foldl (pollStep now) s).instances id =
      some inst := by rw [pollFold_get_ne now ks1 s id hid1, hget]
  obtain ⟨hnone, hev, hcl2⟩ := pollStep_removes_dead now
    (ks1.foldl (pollStep now) s) id inst hget1 hprog hrun hdead
    (hsd1.trans hsd)
  obtain ⟨t, ht⟩ :=
    pollFold_events_mono now ks2 (pollStep now (ks1.foldl (pollStep now) s) id)
  obtain ⟨⟨_, _⟩, hcl3, _, _⟩ :=
    pollFold_frame now ks2 (pollStep now (ks1.foldl (pollStep now) s) id)
  refine ⟨?_, ?_, ?_⟩
  · rw [pollFold_get_ne now ks2 _ id hid2, hnone]
  · rw [ht, hev]
    simp
  · rw [hcl3, hcl2, hcl1]

/-- Probe for the C2 counterexample browser: the browser process died
outside the manager, so `isConnected()` now answers `false`. -/
def c2Probe : BrowserProbe :=
  { connected := false, processExists := true, processKilled := false,
    pagesResult := CallResult.returned 1,
    targetsResult := CallResult.returned 1 }

/-- Concrete instance for the C2 counterexample: previously verified
running, now disconnected (`isConnected()` returns `false`). -/
def c2Instance : BrowserInstance :=
  { id := "1",
    browser := some c2Probe,
    config := { id := "1", name := "A" },
    status := { isRunning := true, lastChecked := 0, inProgress := false,
                action := none } }

/-- Concrete manager state for the C2 counterexample. -/
def c2State : ManagerState :=
  { instances := [("1", c2Instance)],
    configs := [("1", { id := "1", name := "A" })],
    isShuttingDown := false, events := [], cleanedDirs := [],
    persistedConfigs := none, profileDirs := [getUserDataPath "1"] }

/-- C2 (counterexample): in `c2State` the instance `"1"` is running,
not in progress, and its browser is disconnected; one poll cycle removes it
from the registry, yet the cleaned-lock-artifact log stays empty — the poll
does not clean the profile directory lock artifacts of the removed id, so
the claim's pairing of removal with lock-artifact cleanup is false. -/
theorem C2_poll_removal_cleans_no_locks :
    (assocGet c2State.instances "1").map (fun i => i.status.isRunning) =
      some true ∧
    (assocGet c2State.instances "1").map (fun i => i.status.inProgress) =
      some false ∧
    assocGet (checkAllInstancesStatus 5 c2State).instances "1" = none ∧
    (checkAllInstancesStatus 5 c2State).cleanedDirs = [] := by
  decide

/-- Witness for `C2_poll_removes_dead_without_lock_cleanup` at the concrete
state `c2State`. -/
theorem C2_poll_removes_dead_witness :
    assocGet (checkAllInstancesStatus 5 c2State).instances "1" = none ∧
    ("1", ({ isRunning := false, lastChecked := 5,
             inProgress := false } : BrowserStatus)) ∈
      (checkAllInstancesStatus 5 c2State).events ∧
    (checkAllInstancesStatus 5 c2State).cleanedDirs = c2State.cleanedDirs :=
  C2_poll_removes_dead_without_lock_cleanup c2State 5 "1" c2Instance
    (by decide) (by decide) (by decide) (by decide) (by decide) (by decide)

/-! ### Launch (`launchBrowser`, lines 318-466)

Precondition checks (shutdown in progress, instance already registered, id
missing from the config store) throw before any mutation.  Then a
placeholder instance with `inProgress=true, action='starting'` is
registered and emitted, the user-data directory is created or its lock
artifacts cleaned, and the fallible part runs: executable resolution
(`getChromePath` may throw), an `fs.existsSync` re-check of the resolved
path, `puppeteer.launch` plus the bootstrap `newPage`/`goto` (whose errors
the inner `catch` re-wraps with the launch-failure message), a settle
delay, and the three-part verification.  The `catch` of the outer `try`
removes the placeholder, cleans lock artifacts, emits a terminal status and
re-throws with the cause appended to the launch-failure message. -/

def shuttingDownMsg : String := "应用正在关闭，无法启动新的浏览器实例"

def alreadyRunningMsg : String := "浏览器实例已存在"

def profileNotFoundMsg : String := "找不到浏览器配置"

def launchFailPrefix : String := "启动浏览器失败: "

def verifyFailMsg : String := "浏览器启动验证失败"

/-- Status of the placeholder instance registered at the start of a launch
(lines 342-347). -/
def startingStatus (now : Nat) : BrowserStatus :=
  { isRunning := false, lastChecked := now, inProgress := true,
    action := some InstanceAction.starting }

/-- Terminal status emitted after a removal (`isRunning=false`,
`inProgress=false`, no action). -/
def terminalStatus (now : Nat) : BrowserStatus :=
  { isRunning := false, lastChecked := now, inProgress := false }

/-- Status written after successful launch verification (lines 431-435). -/
def runningStatus (now : Nat) : BrowserStatus :=
  { isRunning := true, lastChecked := now, inProgress := false }

/-- Outcome of `puppeteer.launch` + `browser.newPage()` +
`page.goto('https://www.baidu.com')` (the code inside the inner `try`,
lines 374-416): a spawn error, a bootstrap-navigation error, or a launched
browser described by its probe. -/
inductive SpawnOutcome where
  | spawnError (msg : String)
  | gotoError (msg : String)
  | launched (b : BrowserProbe)
deriving DecidableEq, Repr

/-- Oracle for the external effects of one `launchBrowser` call. -/
structure LaunchEnv where
  userDataDirExists : Bool
  chromeLookup : Except String String
  chromeFileExists : Bool
  spawn : SpawnOutcome
deriving Repr

/-- The fallible part of `launchBrowser` after directory preparation
(lines 364-428): executable resolution, existence re-check, spawn and
bootstrap navigation (inner `catch` wraps their message with
`launchFailPrefix`), then the three-part verification. -/
def launchAttemptResult (env : LaunchEnv) : Except String BrowserProbe :=
  match env.chromeLookup with
  | .error m => .error m
  | .ok chromePath =>
    if !env.chromeFileExists then
      .error ("Chrome executable not found at: " ++ chromePath)
    else match env.spawn with
      | .spawnError m => .error (launchFailPrefix ++ m)
      | .gotoError m => .error (launchFailPrefix ++ m)
      | .launched b =>
        if !(checkBrowserRunning (some b)) then .error verifyFailMsg
        else .ok b

/-- Placeholder registration and user-data-directory preparation
(lines 334-361): register the placeholder, emit its status, then create the
profile directory if absent or clean its lock artifacts if present. -/
def launchPrepare (s : ManagerState) (env : LaunchEnv) (now : Nat)
    (config : BrowserConfig) : ManagerState :=
  if env.userDataDirExists then
    { s with
      instances := assocSet s.instances config.id
        { id := config.id, browser := none, config := config,
          status := startingStatus now },
      events := s.events ++ [(config.id, startingStatus now)],
      cleanedDirs := s.cleanedDirs ++ [getUserDataPath config.id] }
  else
    { s with
      instances := assocSet s.instances config.id
        { id := config.id, browser := none, config := config,
          status := startingStatus now },
      events := s.events ++ [(config.id, startingStatus now)],
      profileDirs := s.profileDirs ++ [getUserDataPath config.id] }

/-- `launchBrowser(config)` (lines 318-466). -/
def launchBrowser (s : ManagerState) (env : LaunchEnv) (now : Nat)
    (config : BrowserConfig) : Except String Unit × ManagerState :=
  if s.isShuttingDown then (.error shuttingDownMsg, s)
  else if assocHas s.instances config.id then (.error alreadyRunningMsg, s)
  else if !(assocHas s.configs config.id) then (.error profileNotFoundMsg, s)
  else
    match launchAttemptResult env with
    | .error m =>
      (.error (launchFailPrefix ++ m),
       { launchPrepare s env now config with
         instances :=
           assocErase (launchPrepare s env now config).instances config.id,
         cleanedDirs := (launchPrepare s env now config).cleanedDirs ++
           [getUserDataPath config.id],
         events := (launchPrepare s env now config).events ++
           [(config.id, terminalStatus now)] })
    | .ok b =>
      (.ok (),
       { launchPrepare s env now config with
         instances :=
           assocUpdate (launchPrepare s env now config).instances config.id
             (fun i =>
               { i with browser := some b, status := runningStatus now }),
         events := (launchPrepare s env now config).events ++
           [(config.id, runningStatus now)] })

theorem launchPrepare_events (s : ManagerState) (env : LaunchEnv) (now : Nat)
    (config : BrowserConfig) :
    (launchPrepare s env now config).events =
      s.events ++ [(config.id, startingStatus now)] := by
  unfold launchPrepare
  split <;> rfl

/-- `needle` occurs contiguously inside `hay`. -/
def strContains (needle hay : String) : Prop :=
  ∃ a b, hay = a ++ needle ++ b

/-- C3: `launchBrowser(config)` fails synchronously, leaving the whole
manager state (registry, configs, statuses, event log) unchanged, with
`ShuttingDown` when a global shutdown is in progress, with `AlreadyRunning`
when an instance already exists for `config.id`, and with `ProfileNotFound`
when `config.id` is not in the config store — and in exactly these cases:
when all three preconditions pass, the call is not side-effect free (at
least the placeholder status event is emitted). -/
theorem C3_launch_precondition_failures (s : ManagerState) (env : LaunchEnv)
    (now : Nat) (config : BrowserConfig) :
    (s.isShuttingDown = true →
      launchBrowser s env now config = (.error shuttingDownMsg, s)) ∧
    (s.isShuttingDown = false → assocHas s.instances config.id = true →
      launchBrowser s env now config = (.error alreadyRunningMsg, s)) ∧
    (s.isShuttingDown = false → assocHas s.instances config.id = false →
      assocHas s.configs config.id = false →
      launchBrowser s env now config = (.error profileNotFoundMsg, s)) ∧
    (s.isShuttingDown = false → assocHas s.instances config.id = false →
      assocHas s.configs config.id = true →
      (launchBrowser s env now config).2.events ≠ s.events) := by
  refine ⟨?_, ?_, ?_, ?_⟩
  · intro hsd
    unfold launchBrowser
    rw [if_pos hsd]
  · intro hsd hin
    unfold launchBrowser
    rw [if_neg (by rw [hsd]; exact Bool.false_ne_true), if_pos hin]
  · intro hsd hin hcf
    unfold launchBrowser
    rw [if_neg (by rw [hsd]; exact Bool.false_ne_true),
      if_neg (by rw [hin]; exact Bool.false_ne_true),
      if_pos (by rw [hcf]; rfl)]
  · intro hsd hin hcf
    unfold launchBrowser
    rw [if_neg (by rw [hsd]; exact Bool.false_ne_true),
      if_neg (by rw [hin]; exact Bool.false_ne_true),
      if_neg (by rw [hcf]; exact Bool.false_ne_true)]
    cases hatt : launchAttemptResult env with
    | error m =>
      intro h
      dsimp only at h
      rw [launchPrepare_events] at h
      have := congrArg List.length h
      simp at this
    | ok b =>
      intro h
      dsimp only at h
      rw [launchPrepare_events] at h
      have := congrArg List.length h
      simp at this

/-- The underlying cause message of the first failing stage of a launch
attempt, `none` when every stage succeeds.  The stages are: executable
resolution throws; resolved executable missing on disk; spawn error;
bootstrap-navigation error; post-launch verification failure. -/
def launchFailCause (env : LaunchEnv) : Option String :=
  match env.chromeLookup with
  | .error m => some m
  | .ok p =>
    if !env.chromeFileExists then
      some ("Chrome executable not found at: " ++ p)
    else match env.spawn with
      | .spawnError m => some m
      | .gotoError m => some m
      | .launched b =>
        if !(checkBrowserRunning (some b)) then some verifyFailMsg else none

theorem launchAttemptResult_of_cause (env : LaunchEnv) (c : String)
    (h : launchFailCause env = some c) :
    launchAttemptResult env = .error c ∨
    launchAttemptResult env = .error (launchFailPrefix ++ c) := by
  unfold launchFailCause at h
  unfold launchAttemptResult
  cases hc : env.chromeLookup with
  | error m =>
    simp only [hc] at h ⊢
    left
    rw [Option.some_inj.mp h]
  | ok p =>
    simp only [hc] at h ⊢
    by_cases hex : env.chromeFileExists
    · rw [if_neg (by rw [hex]; simp)] at h ⊢
      cases hsp : env.spawn with
      | spawnError m =>
        simp only [hsp] at h ⊢
        right
        rw [Option.some_inj.mp h]
      | gotoError m =>
        simp only [hsp] at h ⊢
        right
        rw [Option.some_inj.mp h]
      | launched b =>
        simp only [hsp] at h ⊢
        by_cases hck : checkBrowserRunning (some b) = true
        · rw [if_neg (by rw [hck]; simp)] at h
          exact absurd h (by simp)
        · rw [if_pos (by simp [Bool.eq_false_iff.mpr hck])] at h ⊢
          left
          rw [Option.some_inj.mp h]
    · rw [if_pos (by simp [Bool.eq_false_iff.mpr hex])] at h ⊢
      left
      rw [Option.some_inj.mp h]

/-- C4: when the three preconditions pass but a later stage of the launch
fails (executable resolution, on-disk existence re-check, spawn, bootstrap
navigation, or post-launch verification), `launchBrowser` ends with the
placeholder removed (the id absent from the registry), the id's profile
directory lock artifacts cleaned, the event log extended by the placeholder
status followed by a terminal status with `isRunning=false` and
`inProgress=false`, and an error whose message contains the underlying
cause message. -/
theorem C4_launch_failure_cleanup (s : ManagerState) (env : LaunchEnv)
    (now : Nat) (config : BrowserConfig) (c : String)
    (hsd : s.isShuttingDown = false)
    (hin : assocHas s.instances config.id = false)
    (hcf : assocHas s.configs config.id = true)
    (hcause : launchFailCause env = some c) :
    (∃ e, (launchBrowser s env now config).1 = Except.error e ∧
      strContains c e) ∧
    assocGet (launchBrowser s env now config).2.instances config.id = none ∧
    getUserDataPath config.id ∈
      (launchBrowser s env now config).2.cleanedDirs ∧
    (launchBrowser s env now config).2.events = s.events ++
      [(config.id, startingStatus now), (config.id, terminalStatus now)] := by
  have hsplit :
      (launchBrowser s env now config = (Except.error (launchFailPrefix ++ c),
        { launchPrepare s env now config with
          instances :=
            assocErase (launchPrepare s env now config).instances config.id,
          cleanedDirs := (launchPrepare s env now config).cleanedDirs ++
            [getUserDataPath config.id],
          events := (launchPrepare s env now config).events ++
            [(config.id, terminalStatus now)] })) ∨
      (launchBrowser s env now config =
        (Except.error (launchFailPrefix ++ (launchFailPrefix ++ c)),
        { launchPrepare s env now config with
          instances :=
            assocErase (launchPrepare s env now config).instances config.id,
          cleanedDirs := (launchPrepare s env now config).cleanedDirs ++
            [getUserDataPath config.id],
          events := (launchPrepare s env now config).events ++
            [(config.id, terminalStatus now)] })) := by
    unfold launchBrowser
    rw [if_neg (by rw [hsd]; exact Bool.false_ne_true),
      if_neg (by rw [hin]; exact Bool.false_ne_true),
      if_neg (by rw [hcf]; exact Bool.false_ne_true)]
    rcases launchAttemptResult_of_cause env c hcause with hatt | hatt
    · left
      rw [hatt]
    · right
      rw [hatt]
  have hstate : ∀ e2, launchBrowser s env now config = (Except.error e2,
      { launchPrepare s env now config with
        instances :=
          assocErase (launchPrepare s env now config).instances config.id,
        cleanedDirs := (launchPrepare s env now config).cleanedDirs ++
          [getUserDataPath config.id],
        events := (launchPrepare s env now config).events ++
          [(config.id, terminalStatus now)] }) →
      assocGet (launchBrowser s env now config).2.instances config.id =
        none ∧
      getUserDataPath config.id ∈
        (launchBrowser s env now config).2.cleanedDirs ∧
      (launchBrowser s env now config).2.events = s.events ++
        [(config.id, startingStatus now),
          (config.id, terminalStatus now)] := by
    intro e2 heq
    rw [heq]
    refine ⟨?_, ?_, ?_⟩
    · dsimp only
      rw [assocGet_assocErase, if_pos rfl]
    · simp
    · dsimp only
      rw [launchPrepare_events, List.append_assoc]
      rfl
  rcases hsplit with heq | heq
  · refine ⟨⟨launchFailPrefix ++ c, by rw [heq], launchFailPrefix, "",
      by simp [String.append_assoc]⟩, hstate _ heq⟩
  · refine ⟨⟨launchFailPrefix ++ (launchFailPrefix ++ c),
      by rw [heq], launchFailPrefix ++ launchFailPrefix, "",
      by simp [String.append_assoc]⟩, hstate _ heq⟩

/-- Launch oracle for witnesses: executable resolution succeeds but the
spawn throws. -/
def c4Env : LaunchEnv :=
  { userDataDirExists := true,
    chromeLookup := Except.ok "/usr/bin/google-chrome",
    chromeFileExists := true,
    spawn := SpawnOutcome.spawnError "boom" }

/-- State with one stored config `"1"` and nothing running. -/
def idleState : ManagerState :=
  { instances := [],
    configs := [("1", { id := "1", name := "A" })],
    isShuttingDown := false, events := [], cleanedDirs := [],
    persistedConfigs := none, profileDirs := [getUserDataPath "1"] }

/-- Same as `idleState` but with the global shutdown flag set. -/
def shuttingState : ManagerState :=
  { idleState with isShuttingDown := true }

/-- Witness for `C3_launch_precondition_failures`: each precondition
failure observed at a concrete state, and a side effect observed when all
preconditions pass. -/
theorem C3_launch_precondition_witness :
    launchBrowser shuttingState c4Env 5 { id := "1", name := "A" } =
      (.error shuttingDownMsg, shuttingState) ∧
    launchBrowser c2State c4Env 5 { id := "1", name := "A" } =
      (.error alreadyRunningMsg, c2State) ∧
    launchBrowser idleState c4Env 5 { id := "7", name := "B" } =
      (.error profileNotFoundMsg, idleState) ∧
    (launchBrowser idleState c4Env 5 { id := "1", name := "A" }).2.events ≠
      idleState.events :=
  ⟨(C3_launch_precondition_failures shuttingState c4Env 5
      { id := "1", name := "A" }).1 (by decide),
   (C3_launch_precondition_failures c2State c4Env 5
      { id := "1", name := "A" }).2.1 (by decide) (by decide),
   (C3_launch_precondition_failures idleState c4Env 5
      { id := "7", name := "B" }).2.2.1 (by decide) (by decide) (by decide),
   (C3_launch_precondition_failures idleState c4Env 5
      { id := "1", name := "A" }).2.2.2 (by decide) (by decide) (by decide)⟩

/-- Witness for `C4_launch_failure_cleanup` at the concrete state
`idleState` with a failing spawn. -/
theorem C4_launch_failure_witness :
    (∃ e, (launchBrowser idleState c4Env 5 { id := "1", name := "A" }).1 =
        Except.error e ∧ strContains "boom" e) ∧
    assocGet (launchBrowser idleState c4Env 5
      { id := "1", name := "A" }).2.instances "1" = none ∧
    getUserDataPath "1" ∈
      (launchBrowser idleState c4Env 5 { id := "1", name := "A" }).2.cleanedDirs ∧
    (launchBrowser idleState c4Env 5 { id := "1", name := "A" }).2.events =
      idleState.events ++
        [("1", startingStatus 5), ("1", terminalStatus 5)] :=
  C4_launch_failure_cleanup idleState c4Env 5 { id := "1", name := "A" }
    "boom" (by decide) (by decide) (by decide) rfl

/-! ### Stop (`cleanupInstance`, lines 207-264; `stopBrowser`, 468-488)

`cleanupInstance` closes pages and the browser inside nested `try`s whose
errors are all caught (the fallback force-kills the OS process); its
`finally` always cleans the lock artifacts (itself error-swallowing),
deletes the id from the registry, and emits a terminal status.  The only
way the call can reject is the final `emit` itself throwing (a subscriber
exception) — which happens after the registry deletion.  `stopBrowser`
throws `InstanceNotFound` when the id is absent; otherwise it marks the
status `inProgress=true, action='stopping'`, emits it, awaits
`cleanupInstance`, and on rejection force-deletes the id and re-throws a
wrapped error. -/

def instanceNotFoundMsg : String := "找不到浏览器实例"

def stopFailPrefix : String := "关闭浏览器失败: "

/-- Oracle for the external effects of one `cleanupInstance` call:
whether the graceful close path fails (caught internally, force-kill
fallback; no effect on manager state), and whether a `statusUpdate`
subscriber throws during the final emit. -/
structure CleanupEnv where
  closeFails : Bool
  emitThrows : Option String

/-- `cleanupInstance(id)` (lines 207-264). -/
def cleanupInstance (s : ManagerState) (env : CleanupEnv) (now : Nat)
    (id : String) : Except String Unit × ManagerState :=
  match assocGet s.instances id with
  | none => (Except.ok (), s)
  | some _ =>
    (match env.emitThrows with
     | some m => Except.error m
     | none => Except.ok (),
     { s with
       cleanedDirs := s.cleanedDirs ++ [getUserDataPath id],
       instances := assocErase s.instances id,
       events := s.events ++ [(id, terminalStatus now)] })

/-- The `{...instance.status, inProgress: true, action: 'stopping'}` status
written and emitted at the start of `stopBrowser` (lines 474-479). -/
def stoppingOf (st : BrowserStatus) : BrowserStatus :=
  { st with inProgress := true, action := some InstanceAction.stopping }

/-- The state after `stopBrowser` has marked the instance as stopping and
emitted that status (lines 474-479), before delegating to
`cleanupInstance`. -/
def markStopping (s : ManagerState) (id : String) (st : BrowserStatus) :
    ManagerState :=
  { s with
    instances := assocUpdate s.instances id
      (fun i => { i with status := stoppingOf i.status }),
    events := s.events ++ [(id, stoppingOf st)] }

/-- `stopBrowser(id)` (lines 468-488). -/
def stopBrowser (s : ManagerState) (env : CleanupEnv) (now : Nat)
    (id : String) : Except String Unit × ManagerState :=
  match assocGet s.instances id with
  | none => (Except.error instanceNotFoundMsg, s)
  | some inst =>
    match cleanupInstance (markStopping s id inst.status) env now id with
    | (Except.ok _, s2) => (Except.ok (), s2)
    | (Except.error m, s2) =>
      (Except.error (stopFailPrefix ++ m),
       { s2 with instances := assocErase s2.instances id })

theorem cleanupInstance_removes (s : ManagerState) (env : CleanupEnv)
    (now : Nat) (id : String) (h : assocGet s.instances id ≠ none) :
    assocGet (cleanupInstance s env now id).2.instances id = none := by
  unfold cleanupInstance
  cases hget : assocGet s.instances id with
  | none => exact absurd hget h
  | some inst =>
    simp only [hget]
    rw [assocGet_assocErase, if_pos rfl]

/-- C5: `stopBrowser(id)` fails with `InstanceNotFound` and leaves the
whole manager state unchanged when no instance exists for `id`; otherwise,
whatever the cleanup oracle does — including the cleanup step itself
throwing — the id is absent from the registry afterwards (so no status,
in particular no dangling `stopping` status, remains stored for it). -/
theorem C5_stop_always_removes (s : ManagerState) (env : CleanupEnv)
    (now : Nat) (id : String) :
    (assocGet s.instances id = none →
      stopBrowser s env now id = (Except.error instanceNotFoundMsg, s)) ∧
    (assocGet s.instances id ≠ none →
      assocGet (stopBrowser s env now id).2.instances id = none) := by
  constructor
  · intro hnone
    unfold stopBrowser
    simp only [hnone]
  · intro hsome
    cases hget : assocGet s.instances id with
    | none => exact absurd hget hsome
    | some inst =>
      unfold stopBrowser
      simp only [hget]
      have hs2 := cleanupInstance_removes (markStopping s id inst.status)
        env now id
        (by
          unfold markStopping
          dsimp only
          rw [assocGet_assocUpdate, if_pos rfl, hget]
          simp)
      cases hcl : cleanupInstance (markStopping s id inst.status)
          env now id with
      | mk r s2 =>
        rw [hcl] at hs2
        cases r with
        | ok u => simp only [hcl]; exact hs2
        | error m =>
          simp only [hcl]
          rw [assocGet_assocErase, if_pos rfl]

/-- Cleanup oracle where everything succeeds. -/
def cleanOkEnv : CleanupEnv := { closeFails := false, emitThrows := none }

/-- Cleanup oracle where the final emit throws (a subscriber exception). -/
def cleanThrowEnv : CleanupEnv :=
  { closeFails := true, emitThrows := some "listener blew up" }

/-- Witness for `C5_stop_always_removes`: the not-found failure at a state
without the instance, and removal of the id both under a clean cleanup and
under a throwing cleanup. -/
theorem C5_stop_always_removes_witness :
    stopBrowser idleState cleanOkEnv 5 "1" =
      (Except.error instanceNotFoundMsg, idleState) ∧
    assocGet (stopBrowser c2State cleanOkEnv 5 "1").2.instances "1" =
      none ∧
    assocGet (stopBrowser c2State cleanThrowEnv 5 "1").2.instances "1" =
      none :=
  ⟨(C5_stop_always_removes idleState cleanOkEnv 5 "1").1 (by decide),
   (C5_stop_always_removes c2State cleanOkEnv 5 "1").2 (by decide),
   (C5_stop_always_removes c2State cleanThrowEnv 5 "1").2 (by decide)⟩

/-! ### Shutdown-all (`stopAllBrowsers`, lines 490-522)

Sets `isShuttingDown`, clears the poll timer, then races the parallel
per-id cleanups (each individually `.catch`-protected, so a single failing
cleanup never rejects the aggregate) against a 2-second timeout whose
rejection is caught and logged; the `finally` unconditionally clears the
registry and resets `isShuttingDown` to `false`.  The function returns
normally in every case.  A timed-out race abandons the cleanups that had
not yet run; we model partial progress as a prefix of the id list. -/

/-- Oracle for one `stopAllBrowsers` call: whether the aggregate 2-second
timeout fired, how many per-id cleanups completed before it fired, and the
cleanup oracle of the i-th cleanup. -/
structure ShutdownEnv where
  timedOut : Bool
  completed : Nat
  cleanupEnvs : Nat → CleanupEnv

/-- The per-id cleanup loop of `stopAllBrowsers`: each `cleanupInstance`
rejection is swallowed by its `.catch`, so only the state effects
remain. -/
def runCleanups (env : ShutdownEnv) (now : Nat) (s : ManagerState)
    (ids : List (Nat × String)) : ManagerState :=
  ids.foldl
    (fun s2 p => (cleanupInstance s2 (env.cleanupEnvs p.1) now p.2).2) s

/-- `stopAllBrowsers()` (lines 490-522). -/
def stopAllBrowsers (s : ManagerState) (env : ShutdownEnv) (now : Nat) :
    ManagerState :=
  { runCleanups env now { s with isShuttingDown := true }
      (if env.timedOut
       then (s.instances.map Prod.fst).enum.take env.completed
       else (s.instances.map Prod.fst).enum) with
    instances := [], isShuttingDown := false }

/-- C6: after any `stopAllBrowsers` call — cleanups succeeded, failed, or
cut short by the aggregate timeout — the registry is empty and
`isShuttingDown` is reset to `false`; the function returns normally for
every oracle (no error escapes), which also discharges the claim's
only-omitted-at-exit clause vacuously, since the reset is never omitted. -/
theorem C6_shutdown_clears_registry_and_flag (s : ManagerState)
    (env : ShutdownEnv) (now : Nat) :
    (stopAllBrowsers s env now).instances = [] ∧
    (stopAllBrowsers s env now).isShuttingDown = false :=
  ⟨rfl, rfl⟩

/-! ### Config validation and the config store
(`validateBrowserConfig`, utils.ts lines 128-140; `saveConfig`, lines
278-290; `deleteConfig`, lines 292-312) -/

def invalidConfigMsg : String := "无效的浏览器配置"

def duplicateNameMsg : String := "实例名称已存在"

def invalidIdMsg : String := "无效的配置ID"

def configNotFoundMsg : String := "配置不存在"

def instanceRunningMsg : String := "无法删除正在运行的实例配置"

/-- The JS regex test `/^\d+$/.test(s)`: non-empty and all characters
decimal digits. -/
def jsRegexDigitsTest (s : String) : Bool :=
  s.length != 0 && s.toList.all (fun ch => ch.isDigit)

/-- Whitespace characters removed by `String.prototype.trim` (the ASCII
ones; the further Unicode space code points never occur in the strings
handled here). -/
def jsIsWhitespace (ch : Char) : Bool :=
  ch = ' ' || ch = '\t' || ch = '\n' || ch = '\r' ||
  ch = Char.ofNat 11 || ch = Char.ofNat 12

/-- JS falsiness of `s.trim()`: the trimmed string is empty, i.e. every
character of `s` is whitespace. -/
def jsTrimIsEmpty (s : String) : Bool :=
  s.toList.all jsIsWhitespace

/-- `validateBrowserConfig(config)` (utils.ts lines 128-140).  The
`typeof` checks are vacuous in the typed embedding; JS string truthiness
of `trim()` is non-emptiness of the trimmed string. -/
def validateBrowserConfig (c : BrowserConfig) : Bool :=
  if jsTrimIsEmpty c.id then false
  else if jsTrimIsEmpty c.name then false
  else if !jsRegexDigitsTest c.id then false
  else if c.name.length > 50 then false
  else true

/-- The final two lines of a successful `saveConfig`: store the profile
under its id and persist the full config list. -/
def saveConfigStore (s : ManagerState) (config : BrowserConfig) :
    Except String Unit × ManagerState :=
  (Except.ok (),
   { s with
     configs := assocSet s.configs config.id config,
     persistedConfigs :=
       some ((assocSet s.configs config.id config).map Prod.snd) })

/-- `saveConfig(config)` (lines 278-290): validation, then the duplicate
name check against the first stored profile with the same name, then store
and persist. -/
def saveConfig (s : ManagerState) (config : BrowserConfig) :
    Except String Unit × ManagerState :=
  if !validateBrowserConfig config then (Except.error invalidConfigMsg, s)
  else
    match (s.configs.map Prod.snd).find?
        (fun c2 => c2.name = config.name) with
    | some existing =>
      if existing.id ≠ config.id then (Except.error duplicateNameMsg, s)
      else saveConfigStore s config
    | none => saveConfigStore s config

/-- `deleteConfig(id)` (lines 292-312): the falsy/type guard on the id,
the running-instance guard, the existence check, then removal, persistence
and deletion of the on-disk profile directory. -/
def deleteConfig (s : ManagerState) (id : String) :
    Except String Unit × ManagerState :=
  if id = "" then (Except.error invalidIdMsg, s)
  else if assocHas s.instances id then (Except.error instanceRunningMsg, s)
  else if !assocHas s.configs id then (Except.error configNotFoundMsg, s)
  else
    (Except.ok (),
     { s with
       configs := assocErase s.configs id,
       persistedConfigs := some ((assocErase s.configs id).map Prod.snd),
       profileDirs := s.profileDirs.filter
         (fun d => !(d = getUserDataPath id : Bool)) })

/-- C7: under the config-store invariant that names are unique across
distinct profile ids, `saveConfig(config)` fails with
`InvalidConfig` when the validation rules reject the config, fails with
`DuplicateName` when a stored profile with a different id already has the
same name, and otherwise (including a profile keeping or reusing its own
name) returns success, stores the profile under its id, and persists the
full config list.  As the three cases exhaust all inputs and produce
distinct outcomes, each failure occurs exactly in its case. -/
theorem C7_saveConfig_cases (s : ManagerState) (config : BrowserConfig)
    (hnames : ∀ e1 ∈ s.configs, ∀ e2 ∈ s.configs,
      e1.2.name = e2.2.name → e1.2.id = e2.2.id) :
    (validateBrowserConfig config = false →
      saveConfig s config = (Except.error invalidConfigMsg, s)) ∧
    (validateBrowserConfig config = true →
      (∃ e ∈ s.configs, e.2.name = config.name ∧ e.2.id ≠ config.id) →
      saveConfig s config = (Except.error duplicateNameMsg, s)) ∧
    (validateBrowserConfig config = true →
      (¬ ∃ e ∈ s.configs, e.2.name = config.name ∧ e.2.id ≠ config.id) →
      (saveConfig s config).1 = Except.ok () ∧
      assocGet (saveConfig s config).2.configs config.id = some config ∧
      (saveConfig s config).2.persistedConfigs =
        some ((saveConfig s config).2.configs.map Prod.snd)) := by
  refine ⟨?_, ?_, ?_⟩
  · intro hval
    unfold saveConfig
    rw [if_pos (by rw [hval]; rfl)]
  · intro hval hdup
    obtain ⟨e, he, hname, hid⟩ := hdup
    unfold saveConfig
    rw [if_neg (by rw [hval]; exact Bool.false_ne_true)]
    cases hfind : (s.configs.map Prod.snd).find?
        (fun c2 => c2.name = config.name) with
    | none =>
      rw [List.find?_eq_none] at hfind
      exact absurd (by simpa using hname)
        (hfind e.2 (List.mem_map_of_mem Prod.snd he))
    | some ex =>
      simp only [hfind]
      have hexname : ex.name = config.name := by
        have := List.find?_some hfind
        simpa using this
      have hexmem : ex ∈ s.configs.map Prod.snd :=
        List.mem_of_find?_eq_some hfind
      obtain ⟨e3, he3, he3eq⟩ := List.mem_map.mp hexmem
      have hexid : ex.id ≠ config.id := by
        intro hcontra
        have hsame : e3.2.id = e.2.id :=
          hnames e3 he3 e he
            (by rw [he3eq, hexname, hname])
        rw [he3eq] at hsame
        exact hid (hsame ▸ hcontra)
      rw [if_pos hexid]
  · intro hval hnodup
    unfold saveConfig
    rw [if_neg (by rw [hval]; exact Bool.false_ne_true)]
    have hstore :
        (saveConfigStore s config).1 = Except.ok () ∧
        assocGet (saveConfigStore s config).2.configs config.id =
          some config ∧
        (saveConfigStore s config).2.persistedConfigs =
          some ((saveConfigStore s config).2.configs.map Prod.snd) := by
      refine ⟨rfl, ?_, rfl⟩
      unfold saveConfigStore
      dsimp only
      rw [assocGet_assocSet, if_pos rfl]
    cases hfind : (s.configs.map Prod.snd).find?
        (fun c2 => c2.name = config.name) with
    | none => simpa only [hfind] using hstore
    | some ex =>
      simp only [hfind]
      have hexname : ex.name = config.name := by
        have := List.find?_some hfind
        simpa using this
      obtain ⟨e3, he3, he3eq⟩ :=
        List.mem_map.mp (List.mem_of_find?_eq_some hfind)
      have hexid : ¬ (ex.id ≠ config.id) := by
        intro hcontra
        exact hnodup ⟨e3, he3, by rw [he3eq, hexname], by rw [he3eq]; exact hcontra⟩
      rw [if_neg hexid]
      exact hstore

/-- Witness for `C7_saveConfig_cases`: at `idleState` (one stored profile
`{id "1", name "A"}`), an invalid config is rejected, a different id
reusing name `"A"` is a duplicate, and a rename of profile `"1"` keeping
its own id succeeds, stores and persists. -/
theorem C7_saveConfig_witness :
    saveConfig idleState { id := "x", name := "B" } =
      (Except.error invalidConfigMsg, idleState) ∧
    saveConfig idleState { id := "2", name := "A" } =
      (Except.error duplicateNameMsg, idleState) ∧
    ((saveConfig idleState { id := "1", name := "B" }).1 = Except.ok () ∧
      assocGet (saveConfig idleState
        { id := "1", name := "B" }).2.configs "1" =
        some { id := "1", name := "B" } ∧
      (saveConfig idleState { id := "1", name := "B" }).2.persistedConfigs =
        some ((saveConfig idleState
          { id := "1", name := "B" }).2.configs.map Prod.snd)) :=
  ⟨(C7_saveConfig_cases idleState { id := "x", name := "B" }
      (by decide)).1 (by decide),
   (C7_saveConfig_cases idleState { id := "2", name := "A" }
      (by decide)).2.1 (by decide)
      ⟨("1", { id := "1", name := "A" }), by decide, by decide, by decide⟩,
   (C7_saveConfig_cases idleState { id := "1", name := "B" }
      (by decide)).2.2 (by decide)
      (by
        rintro ⟨e, he, hname, hid⟩
        have : e = ("1", { id := "1", name := "A" }) := by
          have := he
          simp [idleState] at this
          exact this
        rw [this] at hname
        exact absurd hname (by decide))⟩

/-- C8 (counterexample): at `idleState`, the id `""` is absent from the
config store and has no running instance, yet `deleteConfig("")` fails with
the invalid-id error rather than `NotFound`: the claim's "fails with
NotFound when id is absent from the config store" is false at the empty
id. -/
theorem C8_delete_empty_id_not_notfound :
    assocHas idleState.configs "" = false ∧
    assocHas idleState.instances "" = false ∧
    (deleteConfig idleState "").1 = Except.error invalidIdMsg ∧
    invalidIdMsg ≠ configNotFoundMsg :=
  ⟨by decide, by decide, rfl, by decide⟩

/-- C8 (amended): for every non-empty id, `deleteConfig(id)` fails with
`InstanceRunning` whenever an instance exists for the id (leaving all state
unchanged), fails with `NotFound` when no instance exists and the id is
absent from the config store (state unchanged), and otherwise succeeds,
removes the profile from the store, persists the updated list, and removes
the on-disk profile directory for the id; the empty id instead fails with
an invalid-id error. -/
theorem C8_deleteConfig_cases (s : ManagerState) (id : String)
    (hid : id ≠ "") :
    (assocHas s.instances id = true →
      deleteConfig s id = (Except.error instanceRunningMsg, s)) ∧
    (assocHas s.instances id = false → assocHas s.configs id = false →
      deleteConfig s id = (Except.error configNotFoundMsg, s)) ∧
    (assocHas s.instances id = false → assocHas s.configs id = true →
      (deleteConfig s id).1 = Except.ok () ∧
      assocGet (deleteConfig s id).2.configs id = none ∧
      (deleteConfig s id).2.persistedConfigs =
        some ((deleteConfig s id).2.configs.map Prod.snd) ∧
      getUserDataPath id ∉ (deleteConfig s id).2.profileDirs) := by
  refine ⟨?_, ?_, ?_⟩
  · intro hrun
    unfold deleteConfig
    rw [if_neg hid, if_pos hrun]
  · intro hrun hcf
    unfold deleteConfig
    rw [if_neg hid, if_neg (by rw [hrun]; exact Bool.false_ne_true),
      if_pos (by rw [hcf]; rfl)]
  · intro hrun hcf
    unfold deleteConfig
    rw [if_neg hid, if_neg (by rw [hrun]; exact Bool.false_ne_true),
      if_neg (by rw [hcf]; exact Bool.false_ne_true)]
    refine ⟨rfl, ?_, rfl, ?_⟩
    · dsimp only
      rw [assocGet_assocErase, if_pos rfl]
    · dsimp only
      intro hmem
      rw [List.mem_filter] at hmem
      simp at hmem

/-- Witness for `C8_deleteConfig_cases`: delete while running fails with
`InstanceRunning` at `c2State`; delete of an unknown id fails with
`NotFound` at `idleState`; delete of the stored, not-running profile `"1"`
at `idleState` succeeds, removes it, persists, and removes the profile
directory. -/
theorem C8_deleteConfig_witness :
    deleteConfig c2State "1" = (Except.error instanceRunningMsg, c2State) ∧
    deleteConfig idleState "7" =
      (Except.error configNotFoundMsg, idleState) ∧
    ((deleteConfig idleState "1").1 = Except.ok () ∧
      assocGet (deleteConfig idleState "1").2.configs "1" = none ∧
      (deleteConfig idleState "1").2.persistedConfigs =
        some ((deleteConfig idleState "1").2.configs.map Prod.snd) ∧
      getUserDataPath "1" ∉ (deleteConfig idleState "1").2.profileDirs) :=
  ⟨(C8_deleteConfig_cases c2State "1" (by decide)).1 (by decide),
   (C8_deleteConfig_cases idleState "7" (by decide)).2.1 (by decide)
     (by decide),
   (C8_deleteConfig_cases idleState "1" (by decide)).2.2 (by decide)
     (by decide)⟩

/-! ### Executable resolution (`getChromePath`, utils.ts lines 36-107)

`statSync` is an oracle `String → Option FileStat` (`none` = the call
throws, e.g. for a missing path).  A path is accepted when it is a regular
file and, on non-Windows platforms, has at least one executable bit set; on
Windows any regular file is accepted.  A falsy (empty) or rejected custom
path silently falls through to the per-platform candidate list.  On
Windows, `process.env.LOCALAPPDATA + '\\...'` stringifies a missing
variable as `"undefined"`; on macOS `path.join(process.env.HOME || '',
suffix)` is embedded as concatenation (exact for a `HOME` that does not end
in a separator, and for the empty fallback). -/

def chromeNotFoundMsg : String :=
  "找不到Chrome浏览器，请确保已安装Google Chrome或提供正确的安装路径"

/-- Result of `fs.statSync`: regular-file flag and permission mode. -/
structure FileStat where
  isFile : Bool
  mode : Nat
deriving DecidableEq, Repr

/-- `process.platform` values distinguished by the source. -/
inductive Platform where
  | win32
  | darwin
  | linux
  | other
deriving DecidableEq, Repr

/-- Filesystem/platform oracle for `getChromePath`. -/
structure FsEnv where
  stat : String → Option FileStat
  platform : Platform
  localAppData : Option String
  home : Option String

/-- The acceptance test applied to both the custom path and each candidate
(lines 39-52 and 86-99): `statSync` succeeds, the path is a regular file,
and on non-Windows platforms some executable bit is set. -/
def statAccepts (env : FsEnv) (p : String) : Bool :=
  match env.stat p with
  | none => false
  | some st =>
    if st.isFile then
      if env.platform = Platform.win32 then true
      else if st.mode.land 0o111 ≠ 0 then true
      else false
    else false

/-- The per-platform candidate list (lines 59-82); empty for platforms the
`switch` does not cover. -/
def defaultChromePaths (env : FsEnv) : List String :=
  match env.platform with
  | Platform.win32 =>
    ["C:\\Program Files\\Google\\Chrome\\Application\\chrome.exe",
     "C:\\Program Files (x86)\\Google\\Chrome\\Application\\chrome.exe",
     (match env.localAppData with
      | some l => l
      | none => "undefined") ++ "\\Google\\Chrome\\Application\\chrome.exe"]
  | Platform.darwin =>
    ["/Applications/Google Chrome.app/Contents/MacOS/Google Chrome",
     (match env.home with
      | some h => h
      | none => "") ++
       "/Applications/Google Chrome.app/Contents/MacOS/Google Chrome"]
  | Platform.linux =>
    ["/usr/bin/google-chrome", "/usr/bin/google-chrome-stable"]
  | Platform.other => []

/-- The candidate-probing loop and final throw (lines 85-106). -/
def defaultChromeLookup (env : FsEnv) : Except String String :=
  match (defaultChromePaths env).find? (fun p => statAccepts env p) with
  | some p => Except.ok p
  | none => Except.error chromeNotFoundMsg

/-- `getChromePath(customPath?)` (lines 36-107). -/
def getChromePath (env : FsEnv) (customPath : Option String) :
    Except String String :=
  match customPath with
  | some p =>
    if p = "" then defaultChromeLookup env
    else if statAccepts env p then Except.ok p
    else defaultChromeLookup env
  | none => defaultChromeLookup env

/-- C9: `getChromePath` returns the explicitly configured path exactly when
it names an existing regular file that is executable (the executable-bit
check applying off Windows): an accepted custom path is returned as-is; a
missing or rejected custom path can never be the result; otherwise the
first accepted path of the fixed platform-conventional candidate list is
returned, and when no candidate is accepted the `ExecutableNotFound` error
is thrown.  (The hypothesis excludes the degenerate `""` custom path, which
JS truthiness skips before ever consulting the filesystem.) -/
theorem C9_getChromePath_resolution (env : FsEnv)
    (customPath : Option String) (hne : customPath ≠ some "") :
    (∀ p, customPath = some p → statAccepts env p = true →
      getChromePath env customPath = Except.ok p) ∧
    ((customPath = none ∨
        ∃ p, customPath = some p ∧ statAccepts env p = false) →
      getChromePath env customPath = defaultChromeLookup env) ∧
    (∀ p, customPath = some p → statAccepts env p = false →
      getChromePath env customPath ≠ Except.ok p) ∧
    (∀ q, (defaultChromePaths env).find? (fun p => statAccepts env p) =
        some q → defaultChromeLookup env = Except.ok q) ∧
    ((defaultChromePaths env).find? (fun p => statAccepts env p) = none →
      defaultChromeLookup env = Except.error chromeNotFoundMsg) := by
  have hfall : ∀ p, customPath = some p → statAccepts env p = false →
      getChromePath env customPath = defaultChromeLookup env := by
    intro p hp hrej
    subst hp
    unfold getChromePath
    dsimp only
    rw [if_neg (fun h => hne (by rw [h])),
      if_neg (by rw [hrej]; exact Bool.false_ne_true)]
  refine ⟨?_, ?_, ?_, ?_, ?_⟩
  · intro p hp hacc
    subst hp
    unfold getChromePath
    dsimp only
    rw [if_neg (fun h => hne (by rw [h])), if_pos hacc]
  · rintro (hnone | ⟨p, hp, hrej⟩)
    · subst hnone; rfl
    · exact hfall p hp hrej
  · intro p hp hrej
    rw [hfall p hp hrej]
    unfold defaultChromeLookup
    cases hfind : (defaultChromePaths env).find?
        (fun p2 => statAccepts env p2) with
    | none => simp
    | some q =>
      simp only [hfind]
      intro hok
      have hq : statAccepts env q = true := by
        have := List.find?_some hfind
        simpa using this
      have : q = p := by
        have := congrArg (fun r => match r with
          | Except.ok v => v
          | Except.error _ => q) hok
        simpa using this
      rw [this, hrej] at hq
      exact Bool.false_ne_true hq
  · intro q hfind
    unfold defaultChromeLookup
    rw [hfind]
  · intro hfind
    unfold defaultChromeLookup
    rw [hfind]

/-- `statSync` oracle: only `/usr/bin/google-chrome-stable` exists, a
regular file with mode `0o755`. -/
def c9Stat (p : String) : Option FileStat :=
  if p = "/usr/bin/google-chrome-stable" then
    some { isFile := true, mode := 0o755 }
  else none

/-- Linux filesystem oracle for the C9 witness. -/
def c9Env : FsEnv :=
  { stat := c9Stat, platform := Platform.linux, localAppData := none,
    home := none }

/-- Linux oracle whose every `statSync` call throws. -/
def c9EmptyEnv : FsEnv :=
  { stat := fun _ => none, platform := Platform.linux, localAppData := none,
    home := none }

/-- Witness for `C9_getChromePath_resolution`: on `c9Env` a rejected custom
path falls back to the second candidate; with no filesystem at all the
lookup throws `ExecutableNotFound`. -/
theorem C9_getChromePath_witness :
    getChromePath c9Env (some "/opt/chrome") =
      Except.ok "/usr/bin/google-chrome-stable" ∧
    getChromePath c9EmptyEnv none = Except.error chromeNotFoundMsg := by
  constructor
  · have h := C9_getChromePath_resolution c9Env (some "/opt/chrome")
      (by decide)
    rw [h.2.1 (Or.inr ⟨"/opt/chrome", rfl, by decide⟩),
      h.2.2.2.1 "/usr/bin/google-chrome-stable" (by decide)]
  · have h := C9_getChromePath_resolution c9EmptyEnv none (by decide)
    rw [h.2.1 (Or.inl rfl), h.2.2.2.2 (by decide)]

/-! ### Status snapshot (`getAllBrowserStatuses`, lines 528-532)

The method builds `new Map(entries)` from the registry.  To state that the
returned object is fresh — mutating it cannot reach the registry or any
instance's stored `Status` — we model the heap of `Map<string,
BrowserStatus>` objects explicitly: `new Map(...)` appends a new cell and
returns its index, while the registry lives outside those cells, exactly
because the source constructs a new object rather than returning
`this.instances`. -/

/-- Heap for `getAllBrowserStatuses`: the manager's registry plus every
status-map object allocated so far (a reference is an index into
`mapObjects`). -/
structure StatusMapHeap where
  registry : List (String × BrowserInstance)
  mapObjects : List (List (String × BrowserStatus))

/-- `getAllBrowserStatuses()`: allocate a fresh `Map` holding one entry per
registered instance id mapped to that instance's current status, and
return its reference. -/
def getAllBrowserStatuses (h : StatusMapHeap) : Nat × StatusMapHeap :=
  (h.mapObjects.length,
   { h with mapObjects :=
       h.mapObjects ++ [h.registry.map (fun e => (e.1, e.2.status))] })

/-- Entry-level mutations of a `Map<string, BrowserStatus>` object:
`set` (add or replace) and `delete`. -/
inductive MapOp where
  | set (k : String) (v : BrowserStatus)
  | del (k : String)

/-- Dereference a map object. -/
def readMapObject (h : StatusMapHeap) (r : Nat) :
    List (String × BrowserStatus) :=
  h.mapObjects.getD r []

/-- The new contents of a map object after one entry-level mutation. -/
def mapOpApply (op : MapOp) (m : List (String × BrowserStatus)) :
    List (String × BrowserStatus) :=
  match op with
  | MapOp.set k v => assocSet m k v
  | MapOp.del k => assocErase m k

/-- Apply one entry-level mutation to the map object at `r`. -/
def applyMapOp (h : StatusMapHeap) (r : Nat) (op : MapOp) : StatusMapHeap :=
  { h with
    mapObjects := h.mapObjects.set r (mapOpApply op (readMapObject h r)) }

/-- Apply a sequence of entry-level mutations to the map object at `r`. -/
def applyMapOps (h : StatusMapHeap) (r : Nat) (ops : List MapOp) :
    StatusMapHeap :=
  ops.foldl (fun h2 op => applyMapOp h2 r op) h

theorem getD_append_singleton (l : List α) (a : α) (d : α) :
    (l ++ [a]).getD l.length d = a := by
  induction l with
  | nil => rfl
  | cons x l ih => simp [ih]

theorem assocGet_map_snd (l : List (String × α)) (id : String)
    (f : α → β) :
    assocGet (l.map (fun e => (e.1, f e.2))) id =
      (assocGet l id).map f := by
  induction l with
  | nil => rfl
  | cons e l ih =>
    rw [List.map_cons, assocGet_cons, assocGet_cons]
    by_cases he : e.1 = id
    · rw [if_pos he, if_pos he]
      rfl
    · rw [if_neg he, if_neg he, ih]

theorem applyMapOps_registry (h : StatusMapHeap) (r : Nat)
    (ops : List MapOp) : (applyMapOps h r ops).registry = h.registry := by
  induction ops generalizing h with
  | nil => rfl
  | cons op ops ih => exact ih (applyMapOp h r op)

/-- C10: `getAllBrowserStatuses` returns a freshly allocated map whose
contents are exactly one entry per registered instance id, mapped to that
instance's current status (so lookups in the snapshot agree with the
registry); and applying any sequence of entry-level mutations (`set`,
`delete` — adding, removing or replacing entries) to the returned map
leaves the registry, and hence every instance's stored status, unchanged. -/
theorem C10_getAllBrowserStatuses_fresh_snapshot (h : StatusMapHeap)
    (ops : List MapOp) :
    readMapObject (getAllBrowserStatuses h).2 (getAllBrowserStatuses h).1 =
      h.registry.map (fun e => (e.1, e.2.status)) ∧
    (∀ id,
      assocGet
        (readMapObject (getAllBrowserStatuses h).2
          (getAllBrowserStatuses h).1) id =
      (assocGet h.registry id).map BrowserInstance.status) ∧
    (applyMapOps (getAllBrowserStatuses h).2 (getAllBrowserStatuses h).1
      ops).registry = h.registry := by
  have hread :
      readMapObject (getAllBrowserStatuses h).2
        (getAllBrowserStatuses h).1 =
      h.registry.map (fun e => (e.1, e.2.status)) := by
    unfold getAllBrowserStatuses readMapObject
    exact getD_append_singleton h.mapObjects _ []
  refine ⟨hread, ?_, ?_⟩
  · intro id
    rw [hread, assocGet_map_snd]
  · exact applyMapOps_registry _ _ ops

end BrowserManager
